import Mathlib

/-!
# Verification of the continuous view manager (epub.js, `src/managers/continuous/index.js`)

Shallow embedding of the scroll-normalization, visibility, trim/erase,
fill/check growth, navigation and option-handling logic of
`ContinuousViewManager`, with theorems settling the specification claims.

JavaScript numbers that the code only ever adds, subtracts and negates are
modelled as `Int` (`Math.floor` on an integer-valued quantity is the
identity).  A JavaScript argument that may be `undefined` is modelled as
`Option Int`; JS truthiness of such a value is `jsTruthy` below.

Layout: all definitions first, then the theorems.
-/

namespace Epubjs

/-- JS truthiness of a possibly-`undefined` number: `undefined` and `0` are
falsy, every other number is truthy. -/
def jsTruthy : Option Int → Bool
  | none => false
  | some x => x != 0

/-- JS `v || 0` for a possibly-`undefined` number. -/
def jsOrZero : Option Int → Int
  | none => 0
  | some x => if x != 0 then x else 0

/-! ## Scroll normalization (`check`, lines 251–275)

The code computes, from the raw scroll offset, a logical offset:

```js
if (!this.settings.fullsize) {
  if (rtl && rtlScrollType === 'default' && writingMode === 'horizontal') {
    offset = contentLength - visibleLength - offset;
  }
  if (rtl && rtlScrollType === 'negative' && writingMode === 'horizontal') {
    offset = offset * -1;
  }
} else {
  if ((horizontal && rtl && rtlScrollType === 'negative') ||
      (!horizontal && rtl && rtlScrollType === 'default')) {
    offset = offset * -1;
  }
}
```
-/

/-- `settings.rtlScrollType`: the string is compared against `'default'` and
`'negative'`; any other value behaves like a third state. -/
inductive RtlPolicy
  | default
  | negative
  | other
deriving DecidableEq, Repr

/-- Configuration read by the normalization step of `check`. -/
structure ScrollConfig where
  /-- `this.settings.fullsize` -/
  fullsize : Bool
  /-- `this.settings.direction === 'rtl'` -/
  rtl : Bool
  /-- `this.settings.rtlScrollType` -/
  policy : RtlPolicy
  /-- `this.settings.axis === 'horizontal'` -/
  horizontal : Bool
  /-- `writingMode` computed at line 256: `'vertical'` when
  `this.writingMode` starts with `'vertical'`, else `'horizontal'`.  We keep
  the boolean `writingMode === 'horizontal'`. -/
  wmHorizontal : Bool
deriving DecidableEq, Repr

/-- The normalization of the raw scroll offset performed by `check`
(lines 260–275), translated clause by clause. -/
def normalizeOffset (c : ScrollConfig) (contentLength visibleLength raw : Int) : Int :=
  if !c.fullsize then
    let o1 :=
      if c.rtl && c.policy = RtlPolicy.default && c.wmHorizontal then
        contentLength - visibleLength - raw
      else raw
    if c.rtl && c.policy = RtlPolicy.negative && c.wmHorizontal then
      o1 * -1
    else o1
  else
    if (c.horizontal && c.rtl && c.policy = RtlPolicy.negative) ||
        (!c.horizontal && c.rtl && c.policy = RtlPolicy.default) then
      raw * -1
    else raw

/-- The rule table exactly as the claim words it (for the refutation):
non-fullsize + `default` policy + horizontal writing mode gives
`contentLength - visibleLength - raw`; non-fullsize + `negative` +
horizontal gives `-raw`; fullsize + `negative` with the axis matching rtl
(the horizontal axis) gives `-raw`; every other combination leaves the raw
offset unchanged. -/
def claimedNormalizeOffset (c : ScrollConfig) (contentLength visibleLength raw : Int) : Int :=
  if !c.fullsize && c.policy = RtlPolicy.default && c.wmHorizontal then
    contentLength - visibleLength - raw
  else if !c.fullsize && c.policy = RtlPolicy.negative && c.wmHorizontal then
    -raw
  else if c.fullsize && c.policy = RtlPolicy.negative && c.horizontal && c.rtl then
    -raw
  else raw

/-- The corrected rule table: the two non-fullsize rows additionally require
direction rtl, and in the fullsize case the sign also flips for the
`default` policy on the vertical axis with direction rtl. -/
def amendedNormalizeOffset (c : ScrollConfig) (contentLength visibleLength raw : Int) : Int :=
  if !c.fullsize && c.rtl && c.policy = RtlPolicy.default && c.wmHorizontal then
    contentLength - visibleLength - raw
  else if !c.fullsize && c.rtl && c.policy = RtlPolicy.negative && c.wmHorizontal then
    -raw
  else if c.fullsize && c.rtl && c.policy = RtlPolicy.negative && c.horizontal then
    -raw
  else if c.fullsize && c.rtl && c.policy = RtlPolicy.default && !c.horizontal then
    -raw
  else raw

/-! ## The visibility pass (`update`, lines 181–234)

For every view in the window the code tests `isVisible` and then:

```js
if (isVisible === true) {
  if (!view.displayed) {
    const displayed = view.display(this.request)
      .then(function(view) { view.show(); }, err => { view.hide(); });
    promises.push(displayed);
  } else {
    view.show();
  }
  visible.push(view);
} else {
  this.q.enqueue(view.destroy.bind(view));
  clearTimeout(this.trimTimeout);
  this.trimTimeout = setTimeout(..., 250);   // enqueues this.trim
}
```

`isVisible` lives in the base `DefaultViewManager`, which is not part of the
excerpt; per the spec it tests intersection of the view's measured bounds,
offset by the lookahead margin, with the visible range.  The per-view
branching above only consumes its boolean result, so the model carries that
boolean as a per-view field together with the outcome of the view's
`display` promise.

One closure subtlety matters: `view` is declared once with `let` at
function scope (line 188) and reassigned on every iteration.  The
fulfillment handler `function(view) { view.show(); }` shadows it with its
parameter (the view the promise resolves with), so `show` lands on the
right view; the rejection handler `err => { view.hide(); }` closes over
the binding itself.  Promise handlers run only after the synchronous loop
has finished, when `view === views[viewsLength - 1]`, so a rejected
display hides the window's **last** view, not the view whose display
rejected — that view itself receives no call at all. -/

/-- State of one view as seen by `update`: whether a render was already
attempted (`view.displayed`), whether `isVisible` holds for it in this pass,
and whether its `display(request)` promise resolves (`displayOk = true`) or
rejects. -/
structure UView where
  displayed : Bool
  visibleNow : Bool
  displayOk : Bool
deriving DecidableEq, Repr

/-- What `update` does to one view through its own loop-body branch. -/
inductive ViewMark
  /-- `view.show()` was called on it (inline, or through the fulfillment
  handler's shadowing parameter). -/
  | shown
  /-- `view.hide()` was called on it (only the claims use this: the code's
  rejection handler hides the loop variable, see `rejectionHideTarget`). -/
  | hidden
  /-- no call lands on this view from its own branch. -/
  | untouched
  /-- `view.destroy` was enqueued on the task queue. -/
  | destroyEnqueued
deriving DecidableEq, Repr

/-- Per-view effect of the `update` loop body (lines 197–220) on the view
itself.  A visible undisplayed view whose display rejects receives no call
of its own: the rejection handler's `view.hide()` closes over the
function-scoped loop variable and therefore targets the window's last view
(see `rejectionHideTarget`), not this one. -/
def updateMark (v : UView) : ViewMark :=
  if v.visibleNow then
    if !v.displayed then
      if v.displayOk then ViewMark.shown else ViewMark.untouched
    else ViewMark.shown
  else ViewMark.destroyEnqueued

/-- The view every rejection handler's `view.hide()` actually targets: the
value of the loop variable after the loop — the last view of the window
(promise handlers run only once the loop has completed). -/
def rejectionHideTarget (vs : List UView) : Option UView :=
  vs.getLast?


/-- Whether the loop body re-arms the debounced trim timer (the `else`
branch, lines 216–219): it does so exactly when some view is not visible. -/
def updateArmsTrim (vs : List UView) : Bool :=
  vs.any (fun v => !v.visibleNow)

/-- Outcome of a promise. -/
inductive POutcome
  | resolved
  | rejected
deriving DecidableEq, Repr

/-- The raw outcome of `view.display(this.request)`. -/
def displayRaw (v : UView) : POutcome :=
  if v.displayOk then POutcome.resolved else POutcome.rejected

/-- `p.then(onOk, onErr)`: with both handlers attached (and neither
throwing), the resulting promise resolves in either case. -/
def thenHandled : POutcome → POutcome
  | POutcome.resolved => POutcome.resolved
  | POutcome.rejected => POutcome.resolved

/-- `Promise.all`: rejects as soon as one member rejects. -/
def promiseAll (ps : List POutcome) : POutcome :=
  if ps.all (· = POutcome.resolved) then POutcome.resolved else POutcome.rejected

/-- The views for which `update` pushes a display promise: visible and not
yet displayed (lines 200–207). -/
def updatePending (vs : List UView) : List UView :=
  vs.filter (fun v => v.visibleNow && !v.displayed)

/-- Whether some rejection handler fires during the pass — a `hide()` then
lands on `rejectionHideTarget`: exactly when some view for which a display
promise was pushed rejects. -/
def updateHidesLastView (vs : List UView) : Bool :=
  (updatePending vs).any (fun v => !v.displayOk)

/-- Settlement of the promise returned by `update` (lines 224–232): the
`Promise.all` over the handled display promises when any were pushed, an
already-resolved deferred otherwise.  (The `.catch` attached to the
`Promise.all` would in addition turn a rejection into a resolution of the
returned promise.) -/
def updateOutcome (vs : List UView) : POutcome :=
  if (updatePending vs).length ≠ 0 then
    promiseAll ((updatePending vs).map (fun v => thenHandled (displayRaw v)))
  else POutcome.resolved

/-- The per-view effect the claim describes: an intersecting view is
(rendered if needed and) marked shown; a non-intersecting view is marked
hidden, not destroyed. -/
def claimedUpdateMark (v : UView) : ViewMark :=
  if v.visibleNow then ViewMark.shown else ViewMark.hidden

/-! ## Resolved value of `check` (lines 308–323)

```js
if (newViews.length){
  return Promise.all(promises)
    .then(() => this.check())
    .then(() => this.update(delta), err => err);
} else {
  this.q.enqueue(function(){ this.update(); }.bind(this));
  checking.resolve(false);
  return checking.promise;
}
```

When views were added there are two paths.  If every new view's `display`
promise resolves, the value of the recursive `this.check()` is discarded by
`.then(() => this.update(delta))` and the returned promise resolves with
the value of `this.update(delta)` — the array that `Promise.all` produced
when the visibility pass pushed display promises, or `undefined` otherwise.
If some new view's `display` rejects, the `Promise.all` rejection skips the
first `.then` (which has no rejection handler) and lands on `err => err`:
the recursion never runs, no visibility pass runs, and the promise
*resolves* with the error value.  When no view was added, it resolves with
the boolean `false` and the visibility pass is enqueued on the task
queue. -/

/-- The JS values a `check`/`update` promise can resolve with. -/
inductive JsVal
  | bool (b : Bool)
  | undef
  /-- an array of `n` settlement values (from `Promise.all`) -/
  | arr (n : Nat)
  /-- the rejection reason passed through by the `err => err` handler -/
  | error
deriving DecidableEq, Repr

/-- Resolved value of the promise returned by `update` (lines 224–232):
the `Promise.all` array over the pushed display promises when any exist,
`undefined` otherwise. -/
def updateValue (vs : List UView) : JsVal :=
  if (updatePending vs).length ≠ 0 then JsVal.arr (updatePending vs).length
  else JsVal.undef

/-- Settlement of one `check()` call: the resolved value, whether the
visibility pass ran inline, and whether it was enqueued on the task
queue. -/
structure CheckOutcome where
  value : JsVal
  ranUpdateInline : Bool
  enqueuedUpdate : Bool
deriving DecidableEq, Repr

/-- Settlement of one `check()` call (lines 308–323).  `grew` is
`newViews.length !== 0` for this call; `newViewsOk` is whether every new
view's `display` promise resolved; `vs` is the view window the visibility
pass of this call sees.  On growth with all displays resolved, the value
of `this.update(delta)` (the inner recursive `check`'s value is
discarded); on growth with a rejected display, the error value passed
through `err => err`, with no visibility pass at all; with no growth, the
boolean `false`, with the visibility pass enqueued. -/
def checkResolved (grew newViewsOk : Bool) (vs : List UView) : CheckOutcome :=
  if grew then
    if newViewsOk then
      { value := updateValue vs, ranUpdateInline := true, enqueuedUpdate := false }
    else
      { value := JsVal.error, ranUpdateInline := false, enqueuedUpdate := false }
  else
    { value := JsVal.bool false, ranUpdateInline := false, enqueuedUpdate := true }

/-! ## Growth of the window (`check` lines 277–305, `fill` lines 55–67)

The window of mounted views is a contiguous run of section indices in a
document of `N` sections, modelled as `some (lo, hi)` (inclusive) or `none`
when empty.  `append()` asks `views.last().section.next()` — a next section
exists iff `hi + 1 < N`; `prepend()` asks `views.first().section.prev()` —
a previous section exists iff `0 < lo`.  The geometric triggers
`end >= contentLength` and `start < 0` depend on the current scroll offset,
the mounted content and the lookahead margin, all of which change between
calls; the model therefore takes them as per-call boolean inputs. -/

/-- One growth decision of `check`: from the window `w`, with the triggers
`endGE` (`end >= contentLength`) and `startNeg` (`start < 0`), returns
whether any view was appended or prepended (`newViews.length !== 0`) and
the window afterwards. -/
def checkGrowStep (N : Nat) (w : Option (Nat × Nat)) (endGE startNeg : Bool) :
    Bool × Option (Nat × Nat) :=
  match w with
  | none => (false, none)
  | some (lo, hi) =>
    let appended := endGE && decide (hi + 1 < N)
    let hi2 := if appended then hi + 1 else hi
    let prepended := startNeg && decide (0 < lo)
    let lo2 := if prepended then lo - 1 else lo
    (appended || prepended, some (lo2, hi2))

/-- The window after `k` calls of `check`, the `i`-th call seeing the
triggers `env i`. -/
def checkIterState (N : Nat) (env : Nat → Bool × Bool) (w : Option (Nat × Nat)) :
    Nat → Option (Nat × Nat)
  | 0 => w
  | k + 1 => (checkGrowStep N (checkIterState N env w k) (env k).1 (env k).2).2

/-- Whether the `k`-th call of `check` grew the window. -/
def checkGrewAt (N : Nat) (env : Nat → Bool × Bool) (w : Option (Nat × Nat))
    (k : Nat) : Bool :=
  (checkGrowStep N (checkIterState N env w k) (env k).1 (env k).2).1

/-- Number of mounted views. -/
def winSize : Option (Nat × Nat) → Nat
  | none => 0
  | some (lo, hi) => hi + 1 - lo

/-! ## Eviction (`trim` lines 328–350, `erase` lines 352–385)

```js
const displayed = this.views.displayed();
const first = displayed[0];
const last = displayed[displayed.length - 1];
const firstIndex = this.views.indexOf(first);
const lastIndex = this.views.indexOf(last);
const above = this.views.slice(0, firstIndex);
const below = this.views.slice(lastIndex + 1);
for (let i = 0; i < above.length - 1; i++) this.erase(above[i], above);
for (let j = 1; j < below.length; j++) this.erase(below[j]);
```

`Views.displayed()` (helper outside the excerpt) filters the window on the
`displayed` flag.  Views are distinct objects, so `indexOf(displayed[0])`
is the index of the first view whose `displayed` flag is set and
`indexOf(displayed[displayed.length - 1])` the index of the last such view.
Each `erase` removes its view from the window, so after both loops the
window is: the last element of `above` (if any), the views from
`firstIndex` to `lastIndex`, and the first element of `below` (if any). -/

/-- A view as seen by `trim`: its position in the window and its
`displayed` flag. -/
structure TView where
  /-- identity of the underlying view object -/
  id : Nat
  displayed : Bool
deriving DecidableEq, Repr

/-- The view window after `trim` (lines 328–350).  When no view is
displayed the claim under verification does not apply (`displayed[0]` is
`undefined` and `indexOf` returns `-1`, handing the out-of-excerpt `Views`
helper negative slice bounds); the model leaves the window unchanged in
that case. -/
def trimViews (vs : List TView) : List TView :=
  let fi := vs.findIdx (·.displayed)
  if fi < vs.length then
    let li := vs.length - 1 - vs.reverse.findIdx (·.displayed)
    let above := vs.take fi
    let below := vs.drop (li + 1)
    above.drop (above.length - 1) ++ (vs.drop fi).take (li + 1 - fi) ++ below.take 1
  else vs

/-- Configuration read by `erase`. -/
structure EraseConfig where
  /-- `this.settings.fullsize` -/
  fullsize : Bool
  /-- `this.settings.axis === 'vertical'` -/
  vertical : Bool
  /-- `this.settings.direction === 'rtl'` -/
  rtl : Bool
deriving DecidableEq, Repr

/-- `view.bounds()`, measured before the view is removed. -/
structure VBounds where
  width : Int
  height : Int
deriving DecidableEq, Repr

/-- The `(left, top)` position `erase` scrolls to (lines 352–385), given
the scroll position `(prevLeft, prevTop)` read before removal, the erased
view's measured bounds, and whether the view was passed as an "above" view
(the second argument of `erase`; `trim` passes it only for above views).
When the view is not above, no `scrollTo` is issued and the position is
unchanged.  `Math.floor` is the identity on the integer-valued widths
modelled here. -/
def eraseScrollTarget (c : EraseConfig) (prevLeft prevTop : Int) (b : VBounds)
    (above : Bool) : Int × Int :=
  if above then
    if c.vertical then (0, prevTop - b.height)
    else
      if c.rtl then
        if !c.fullsize then (prevLeft, 0)
        else (prevLeft + b.width, 0)
      else (prevLeft - b.width, 0)
  else (prevLeft, prevTop)

/-- The corrected compensation table for an "above" eviction: vertical axis
subtracts the view's height from the top position (and zeroes the left);
horizontal ltr subtracts the width from the left position; horizontal rtl
with a fullsize scroller adds the width; horizontal rtl in a bounded
container leaves the position unchanged (the raw offset is measured from
the right edge there, so removing leading content does not move it). -/
def amendedEraseTarget (c : EraseConfig) (prevLeft prevTop : Int) (b : VBounds)
    (above : Bool) : Int × Int :=
  if !above then (prevLeft, prevTop)
  else if c.vertical then (0, prevTop - b.height)
  else if !c.rtl then (prevLeft - b.width, 0)
  else if c.fullsize then (prevLeft + b.width, 0)
  else (prevLeft, 0)

/-! ## Navigation (`next` lines 513–533, `prev` lines 535–555) -/

/-- Layout and manager state read by `next`/`prev`. -/
structure NavConfig where
  /-- `this.layout.props.name === 'pre-paginated'` -/
  prePaginated : Bool
  /-- `this.layout.props.spread` -/
  spread : Bool
  /-- `this.layout.props.delta` -/
  delta : Int
  /-- `this.layout.height` -/
  height : Int
  /-- `this.isPaginated` -/
  isPaginated : Bool
  /-- `this.settings.axis === 'horizontal'` -/
  horizontal : Bool
  /-- `this.views.length` -/
  viewsLen : Nat
deriving DecidableEq, Repr

/-- A scroll position. -/
structure ScrollPos where
  left : Int
  top : Int
deriving DecidableEq, Repr

/-- Modelled from the spec: `scrollBy` lives in the base
`DefaultViewManager`, outside the excerpt; per the spec the navigator
"appl[ies] the delta as a scroll offset (respecting axis — horizontal step
vs. vertical step-by-one-viewport)". -/
def scrollBy (p : ScrollPos) (dx dy : Int) : ScrollPos :=
  { left := p.left + dx, top := p.top + dy }

/-- The step delta of `next`/`prev` (lines 515–516 and 537–538): the layout
delta, doubled for a pre-paginated spread layout. -/
def navDelta (c : NavConfig) : Int :=
  if c.prePaginated && c.spread then c.delta * 2 else c.delta

/-- Scroll effect of `next()` (lines 513–533): no-op on an empty window;
otherwise a forward step along the active axis. -/
def nextScroll (c : NavConfig) (p : ScrollPos) : ScrollPos :=
  if c.viewsLen = 0 then p
  else if c.isPaginated && c.horizontal then scrollBy p (navDelta c) 0
  else scrollBy p 0 c.height

/-- Scroll effect of `prev()` (lines 535–555): no-op on an empty window;
otherwise a backward step along the active axis. -/
def prevScroll (c : NavConfig) (p : ScrollPos) : ScrollPos :=
  if c.viewsLen = 0 then p
  else if c.isPaginated && c.horizontal then scrollBy p (-navDelta c) 0
  else scrollBy p 0 (-c.height)

/-! ## Option handling in the constructor (lines 27–32)

```js
extend(this.settings, options.settings || {});
// Gap can be 0, but defaults doesn't handle that
if (options.settings.gap != 'undefined' && options.settings.gap === 0) {
  this.settings.gap = options.settings.gap;
}
```

`extend` (utils/core, outside the excerpt) copies the own properties of
`options.settings` over `this.settings`; the defaults block at lines 13–25
contains no `gap` entry, so an absent `gap` stays unset.  The guard fires
exactly when `options.settings.gap === 0` (`0 != 'undefined'` is true in
JS) and re-asserts the zero. -/

/-- The manager's effective `gap` setting after construction, as a function
of `options.settings.gap` (`none` = key absent). -/
def effectiveGap (optionsGap : Option Int) : Option Int :=
  let afterExtend :=
    match optionsGap with
    | some g => some g
    | none => none
  if optionsGap = some 0 then some 0 else afterExtend

/-! ## Effective lookahead margin of `check` (lines 240–249)

```js
const horizontal = (this.settings.axis === 'horizontal');
let delta = this.settings.offset || 0;
if (_offsetLeft && horizontal) { delta = _offsetLeft; }
if (_offsetTop && !horizontal) { delta = _offsetTop; }
```
-/

/-- The margin `delta` computed by `check` from `settings.offset` and the
two hint arguments. -/
def effectiveDelta (offsetSetting : Option Int) (horizontal : Bool)
    (offsetLeft offsetTop : Option Int) : Int :=
  let d0 := jsOrZero offsetSetting
  let d1 := if jsTruthy offsetLeft && horizontal then offsetLeft.getD 0 else d0
  if jsTruthy offsetTop && !horizontal then offsetTop.getD 0 else d1

/-! ## Theorems -/

/-- `jsOrZero` is the identity on a present number. -/
theorem jsOrZero_some (x : Int) : jsOrZero (some x) = x := by
  by_cases h : x = 0 <;> simp [jsOrZero, h]

/-- C1 counterexample: with `fullsize = true`, direction rtl, policy
`default` and a vertical axis, the code flips the sign of the raw offset
(line 272), while the claim's table says every combination other than its
three listed rows leaves the offset unchanged. -/
theorem check_normalization_claim_false :
    let c : ScrollConfig :=
      { fullsize := true, rtl := true, policy := RtlPolicy.default,
        horizontal := false, wmHorizontal := false }
    normalizeOffset c 100 10 5 = -5 ∧ claimedNormalizeOffset c 100 10 5 = 5 ∧
      normalizeOffset c 100 10 5 ≠ claimedNormalizeOffset c 100 10 5 := by
  refine ⟨rfl, rfl, ?_⟩
  decide

/-- C1 (amended): the scroll normalization of `check` realizes exactly the
corrected rule table: non-fullsize + rtl + `default` + horizontal writing
mode subtracts from content; non-fullsize + rtl + `negative` + horizontal
flips the sign; fullsize + rtl flips the sign both for `negative` on the
horizontal axis and for `default` on the vertical axis; every other
combination leaves the raw offset unchanged. -/
theorem check_normalization_table (c : ScrollConfig)
    (contentLength visibleLength raw : Int) :
    normalizeOffset c contentLength visibleLength raw =
      amendedNormalizeOffset c contentLength visibleLength raw := by
  obtain ⟨fs, rtl, pol, hz, wm⟩ := c
  cases fs <;> cases rtl <;> cases pol <;> cases hz <;> cases wm <;>
    simp [normalizeOffset, amendedNormalizeOffset]

/-- C2 counterexample: a view that does not intersect the visible range has
its `destroy` enqueued on the task queue (line 213); it is not marked
hidden as the claim states. -/
theorem update_hides_nonvisible_claim_false :
    let v : UView := { displayed := true, visibleNow := false, displayOk := true }
    updateMark v = ViewMark.destroyEnqueued ∧ claimedUpdateMark v = ViewMark.hidden ∧
      updateMark v ≠ claimedUpdateMark v := by
  exact ⟨rfl, rfl, by decide⟩

/-- C2 (amended): in the visibility pass, an intersecting view that is not
yet displayed is rendered and, when the render resolves, marked shown; an
intersecting already-rendered view is shown idempotently; a
non-intersecting view has its destruction enqueued on the task queue (not
hidden), and the debounced trim scan over a 250 time-unit quiet window is
re-armed exactly when some view in the pass is non-intersecting. -/
theorem update_visibility_pass (vs : List UView) (v : UView) :
    (v.visibleNow = true → v.displayed = false → v.displayOk = true →
      updateMark v = ViewMark.shown) ∧
    (v.visibleNow = true → v.displayed = true → updateMark v = ViewMark.shown) ∧
    (v.visibleNow = false → updateMark v = ViewMark.destroyEnqueued) ∧
    (updateArmsTrim vs = true ↔ ∃ w ∈ vs, w.visibleNow = false) := by
  refine ⟨?_, ?_, ?_, ?_⟩
  · intro h1 h2 h3; simp [updateMark, h1, h2, h3]
  · intro h1 h2; simp [updateMark, h1, h2]
  · intro h1; simp [updateMark, h1]
  · simp [updateArmsTrim, List.any_eq_true]

/-- C2 witness: the amended theorem evaluated on a concrete pass. -/
theorem update_visibility_pass_witness :
    updateMark { displayed := false, visibleNow := true, displayOk := true } = ViewMark.shown ∧
    updateMark { displayed := true, visibleNow := false, displayOk := true } =
      ViewMark.destroyEnqueued ∧
    updateArmsTrim [{ displayed := true, visibleNow := false, displayOk := true }] = true := by
  refine ⟨?_, ?_, ?_⟩
  · exact (update_visibility_pass [] _).1 rfl rfl rfl
  · exact (update_visibility_pass [] _).2.2.1 rfl
  · exact (update_visibility_pass
      [{ displayed := true, visibleNow := false, displayOk := true }]
      { displayed := true, visibleNow := false, displayOk := true }).2.2.2.mpr
      ⟨{ displayed := true, visibleNow := false, displayOk := true }, by simp, rfl⟩

/-- C8 counterexample: in a two-view pass where the first view's display
rejects, the rejecting view is not hidden — it receives no call at all,
because the rejection handler `err => view.hide()` (line 205) closes over
the function-scoped loop variable (line 188), which by the time promise
handlers run holds the window's last view: the hide lands there instead. -/
theorem update_failure_hidden_claim_false :
    let vFail : UView := { displayed := false, visibleNow := true, displayOk := false }
    let vLast : UView := { displayed := true, visibleNow := true, displayOk := true }
    updateMark vFail = ViewMark.untouched ∧
      updateMark vFail ≠ ViewMark.hidden ∧
      updateHidesLastView [vFail, vLast] = true ∧
      rejectionHideTarget [vFail, vLast] = some vLast ∧
      rejectionHideTarget [vFail, vLast] ≠ some vFail := by
  exact ⟨rfl, by decide, by decide, by decide, by decide⟩

/-- C8 (amended): a view whose display promise rejects is not marked shown
— but neither is it hidden: it receives no call of its own, while the
rejection handler's `view.hide()`, closing over the loop variable, lands
on the window's last view, and fires exactly when some pushed display
rejects.  A sibling whose display resolves is still shown (handlers are
attached per promise, so a rejection aborts no sibling), and the promise
`update` returns resolves for every window — the per-view handlers keep
any display failure out of the `Promise.all` join, so no render failure
propagates to the caller of `check`/`update`. -/
theorem update_render_failure_isolated (vs : List UView) (v w : UView)
    (hv : v.visibleNow = true) (hvd : v.displayed = false) (hvf : v.displayOk = false)
    (hw : w.visibleNow = true) (hwd : w.displayed = false) (hwo : w.displayOk = true) :
    updateMark v = ViewMark.untouched ∧ updateMark v ≠ ViewMark.shown ∧
      updateMark w = ViewMark.shown ∧
      (updateHidesLastView vs = true ↔ ∃ u ∈ updatePending vs, u.displayOk = false) ∧
      updateOutcome vs = POutcome.resolved := by
  refine ⟨?_, ?_, ?_, ?_, ?_⟩
  · simp [updateMark, hv, hvd, hvf]
  · simp [updateMark, hv, hvd, hvf]
  · simp [updateMark, hw, hwd, hwo]
  · simp [updateHidesLastView, List.any_eq_true]
  · have hall : ∀ p : POutcome, thenHandled p = POutcome.resolved := by
      intro p; cases p <;> rfl
    unfold updateOutcome
    split
    · simp [promiseAll, List.all_eq_true, hall]
    · rfl

/-- C8 witness: one failing and one succeeding view in the same pass. -/
theorem update_render_failure_isolated_witness :
    updateMark { displayed := false, visibleNow := true, displayOk := false } =
        ViewMark.untouched ∧
      updateMark { displayed := false, visibleNow := true, displayOk := false } ≠
        ViewMark.shown ∧
      updateMark { displayed := false, visibleNow := true, displayOk := true } =
        ViewMark.shown ∧
      updateHidesLastView
        [{ displayed := false, visibleNow := true, displayOk := false },
         { displayed := false, visibleNow := true, displayOk := true }] = true ∧
      updateOutcome
        [{ displayed := false, visibleNow := true, displayOk := false },
         { displayed := false, visibleNow := true, displayOk := true }] =
        POutcome.resolved := by
  have h := update_render_failure_isolated
    [{ displayed := false, visibleNow := true, displayOk := false },
     { displayed := false, visibleNow := true, displayOk := true }]
    { displayed := false, visibleNow := true, displayOk := false }
    { displayed := false, visibleNow := true, displayOk := true }
    rfl rfl rfl rfl rfl rfl
  exact ⟨h.1, h.2.1, h.2.2.1,
    h.2.2.2.1.mpr
      ⟨{ displayed := false, visibleNow := true, displayOk := false }, by decide, rfl⟩,
    h.2.2.2.2⟩

/-- At most one element survives `takeWhile` on a list whose prefix has at
most one element and whose next element fails the predicate. -/
theorem takeWhile_len_le_one {α : Type} (q : α → Bool) (A l2 : List α) (m0 : α)
    (hA : A.length ≤ 1) (hm : q m0 = false) :
    ((A ++ m0 :: l2).takeWhile q).length ≤ 1 := by
  match A with
  | [] => simp [List.takeWhile_cons, hm]
  | [a] =>
    by_cases hqa : q a = true <;> simp [List.takeWhile_cons, hm, hqa]
  | a :: b :: rest => simp at hA

/-- The `takeWhile` bound for `A ++ M ++ B` when `A` has at most one
element and the head of `M` fails the predicate. -/
theorem takeWhile_bound_of_head {α : Type} (q : α → Bool) (A M B : List α)
    (hA : A.length ≤ 1) (hM : M ≠ []) (hq : q (M.head hM) = false) :
    ((A ++ M ++ B).takeWhile q).length ≤ 1 := by
  obtain ⟨m0, mtail, rfl⟩ := List.exists_cons_of_ne_nil hM
  rw [List.append_assoc, List.cons_append]
  exact takeWhile_len_le_one q A (mtail ++ B) m0 hA (by simpa using hq)

/-- Structure of the window around its displayed run: with `fi`/`li` the
first/last displayed indices, the prefix and suffix are non-displayed, the
middle run starts and ends displayed, and the list trimmed to
one-buffer-each-side has at most one non-displayed view at either end. -/
theorem trim_decomp_aux (vs : List TView) (fi li : Nat)
    (hfiL : fi < vs.length) (hliL : li < vs.length) (hfl : fi ≤ li)
    (hfi_d : vs[fi].displayed = true) (hli_d : vs[li].displayed = true)
    (hgt : ∀ j (hj : j < vs.length), li < j → vs[j].displayed = false) :
    vs = vs.take fi ++ ((vs.drop fi).take (li + 1 - fi) ++ vs.drop (li + 1)) ∧
    (∀ v ∈ vs.drop (li + 1), v.displayed = false) ∧
    (∃ hm : (vs.drop fi).take (li + 1 - fi) ≠ [],
      (((vs.drop fi).take (li + 1 - fi)).head hm).displayed = true ∧
      (((vs.drop fi).take (li + 1 - fi)).getLast hm).displayed = true) ∧
    ((((vs.take fi).drop ((vs.take fi).length - 1) ++ (vs.drop fi).take (li + 1 - fi) ++
        (vs.drop (li + 1)).take 1).takeWhile (fun v => !v.displayed)).length ≤ 1) ∧
    ((((vs.take fi).drop ((vs.take fi).length - 1) ++ (vs.drop fi).take (li + 1 - fi) ++
        (vs.drop (li + 1)).take 1).reverse.takeWhile (fun v => !v.displayed)).length ≤ 1) := by
  have hsplit : vs = vs.take fi ++ ((vs.drop fi).take (li + 1 - fi) ++ vs.drop (li + 1)) := by
    conv_lhs => rw [← List.take_append_drop fi vs]
    congr 1
    conv_lhs => rw [← List.take_append_drop (li + 1 - fi) (vs.drop fi)]
    congr 1
    rw [List.drop_drop]
    congr 1
    omega
  have hpost : ∀ v ∈ vs.drop (li + 1), v.displayed = false := by
    intro v hv
    obtain ⟨i, hi, hveq⟩ := List.mem_iff_getElem.mp hv
    rw [← hveq, List.getElem_drop]
    exact hgt (li + 1 + i) (by simp at hi; omega) (by omega)
  have hmidlen : ((vs.drop fi).take (li + 1 - fi)).length = li + 1 - fi := by
    simp only [List.length_take, List.length_drop]
    omega
  have hmne : (vs.drop fi).take (li + 1 - fi) ≠ [] := by
    intro hcon
    rw [hcon] at hmidlen
    simp at hmidlen
    omega
  have hhead : (((vs.drop fi).take (li + 1 - fi)).head hmne).displayed = true := by
    rw [List.head_eq_getElem, List.getElem_take, List.getElem_drop]
    simpa using hfi_d
  have hlast : (((vs.drop fi).take (li + 1 - fi)).getLast hmne).displayed = true := by
    rw [List.getLast_eq_getElem, List.getElem_take, List.getElem_drop]
    have heq : fi + (((vs.drop fi).take (li + 1 - fi)).length - 1) = li := by
      rw [hmidlen]; omega
    simp only [heq]
    exact hli_d
  have hAlen : ((vs.take fi).drop ((vs.take fi).length - 1)).length ≤ 1 := by
    rw [List.length_drop]
    omega
  have hBlen : ((vs.drop (li + 1)).take 1).length ≤ 1 := by
    rw [List.length_take]
    omega
  have hrne : ((vs.drop fi).take (li + 1 - fi)).reverse ≠ [] := by
    simpa using hmne
  refine ⟨hsplit, hpost, ⟨hmne, hhead, hlast⟩, ?_, ?_⟩
  · exact takeWhile_bound_of_head _ _ _ _ hAlen hmne (by simp [hhead])
  · rw [List.append_assoc, List.reverse_append, List.reverse_append]
    have hBrev : (((vs.drop (li + 1)).take 1).reverse).length ≤ 1 := by
      rw [List.length_reverse]
      exact hBlen
    refine takeWhile_bound_of_head _ _ _ _ hBrev hrne ?_
    have hgl : ((vs.drop fi).take (li + 1 - fi)).getLast hmne =
        ((vs.drop fi).take (li + 1 - fi)).reverse.head hrne := by
      rw [List.getLast_eq_head_reverse]
    simp [← hgl, hlast]

/-- C3: after `trim()` on a window containing at least one displayed view,
the window splits as `pre ++ mid ++ post` with `pre`/`post` the
non-displayed runs around the displayed range `mid`; `trim` keeps of `pre`
only its last element (the view immediately adjacent above) and of `post`
only its first (immediately adjacent below), so the trimmed window has at
most one non-displayed view before its first displayed view and at most
one after its last. -/
theorem trim_eviction_bound (vs : List TView) (hd : ∃ v ∈ vs, v.displayed = true) :
    ∃ pre mid post : List TView,
      vs = pre ++ (mid ++ post) ∧
      (∀ v ∈ pre, v.displayed = false) ∧
      (∀ v ∈ post, v.displayed = false) ∧
      (∃ hm : mid ≠ [], (mid.head hm).displayed = true ∧ (mid.getLast hm).displayed = true) ∧
      trimViews vs = pre.drop (pre.length - 1) ++ mid ++ post.take 1 ∧
      ((trimViews vs).takeWhile (fun v => !v.displayed)).length ≤ 1 ∧
      ((trimViews vs).reverse.takeWhile (fun v => !v.displayed)).length ≤ 1 := by
  have hfiL : vs.findIdx (·.displayed) < vs.length := List.findIdx_lt_length.mpr hd
  have hrd : ∃ v ∈ vs.reverse, v.displayed = true := by
    obtain ⟨v, hv, hvd⟩ := hd
    exact ⟨v, List.mem_reverse.mpr hv, hvd⟩
  have hriR : vs.reverse.findIdx (·.displayed) < vs.reverse.length :=
    List.findIdx_lt_length.mpr hrd
  have hriL : vs.reverse.findIdx (·.displayed) < vs.length := by
    simpa using hriR
  have hliL : vs.length - 1 - vs.reverse.findIdx (·.displayed) < vs.length := by
    omega
  have hfi_d : vs[vs.findIdx (·.displayed)].displayed = true := by
    have := List.findIdx_getElem (w := hfiL)
    simpa using this
  have hli_d :
      vs[vs.length - 1 - vs.reverse.findIdx (·.displayed)].displayed = true := by
    have := List.findIdx_getElem (w := hriR)
    rw [List.getElem_reverse] at this
    simpa using this
  have hgt : ∀ j (hj : j < vs.length),
      vs.length - 1 - vs.reverse.findIdx (·.displayed) < j →
      vs[j].displayed = false := by
    intro j hj hjlt
    have hj2 : vs.length - 1 - j < vs.reverse.findIdx (·.displayed) := by omega
    have := @List.not_of_lt_findIdx _ (·.displayed) vs.reverse _ hj2
    rw [List.getElem_reverse] at this
    have hidx : vs.length - 1 - (vs.length - 1 - j) = j := by omega
    simp only [hidx] at this
    simpa using this
  have hfl : vs.findIdx (·.displayed) ≤
      vs.length - 1 - vs.reverse.findIdx (·.displayed) := by
    by_contra hcon
    push_neg at hcon
    have := hgt (vs.findIdx (·.displayed)) hfiL hcon
    rw [this] at hfi_d
    simp at hfi_d
  obtain ⟨hsplit, hpost, hmid, hbound1, hbound2⟩ :=
    trim_decomp_aux vs (vs.findIdx (·.displayed))
      (vs.length - 1 - vs.reverse.findIdx (·.displayed))
      hfiL hliL hfl hfi_d hli_d hgt
  have hpre : ∀ v ∈ vs.take (vs.findIdx (·.displayed)), v.displayed = false := by
    intro v hv
    obtain ⟨i, hi, hveq⟩ := List.mem_iff_getElem.mp hv
    have hifi : i < vs.findIdx (·.displayed) := by
      simp only [List.length_take] at hi
      omega
    rw [← hveq, List.getElem_take]
    have := @List.not_of_lt_findIdx _ (·.displayed) vs _ hifi
    simpa using this
  have htrim : trimViews vs =
      (vs.take (vs.findIdx (·.displayed))).drop
          ((vs.take (vs.findIdx (·.displayed))).length - 1) ++
        (vs.drop (vs.findIdx (·.displayed))).take
          (vs.length - 1 - vs.reverse.findIdx (·.displayed) + 1 -
            vs.findIdx (·.displayed)) ++
        (vs.drop (vs.length - 1 - vs.reverse.findIdx (·.displayed) + 1)).take 1 := by
    unfold trimViews
    rw [if_pos hfiL]
  refine ⟨vs.take (vs.findIdx (·.displayed)),
    (vs.drop (vs.findIdx (·.displayed))).take
      (vs.length - 1 - vs.reverse.findIdx (·.displayed) + 1 - vs.findIdx (·.displayed)),
    vs.drop (vs.length - 1 - vs.reverse.findIdx (·.displayed) + 1),
    hsplit, hpre, hpost, hmid, ?_, ?_, ?_⟩
  · rw [htrim]
  · rw [htrim]
    exact hbound1
  · rw [htrim]
    exact hbound2

/-- C3 witness: a five-view window, displayed range in the middle flanked
by two non-displayed views on each side. -/
theorem trim_eviction_bound_witness :
    ((trimViews
      [{ id := 0, displayed := false }, { id := 1, displayed := false },
       { id := 2, displayed := true }, { id := 3, displayed := false },
       { id := 4, displayed := false }]).takeWhile (fun v => !v.displayed)).length ≤ 1 :=
  (trim_eviction_bound
    [{ id := 0, displayed := false }, { id := 1, displayed := false },
     { id := 2, displayed := true }, { id := 3, displayed := false },
     { id := 4, displayed := false }]
    ⟨{ id := 2, displayed := true }, by simp, rfl⟩).choose_spec.choose_spec.choose_spec.2.2.2.2.2.1

/-- C4 counterexample: evicting an "above" view of width 50 on the
horizontal axis with direction rtl in a bounded (non-fullsize) container
leaves the scroll position at its prior value 100 (line 375) — neither
`P - E = 50` nor `P + E = 150`. -/
theorem erase_compensation_claim_false :
    let c : EraseConfig := { fullsize := false, vertical := false, rtl := true }
    (eraseScrollTarget c 100 200 { width := 50, height := 60 } true).1 = 100 ∧
      (eraseScrollTarget c 100 200 { width := 50, height := 60 } true).1 ≠ 100 - 50 ∧
      (eraseScrollTarget c 100 200 { width := 50, height := 60 } true).1 ≠ 100 + 50 := by
  exact ⟨rfl, by decide, by decide⟩

/-- C4 (amended): the compensating scroll of `erase` for an "above" view
follows the corrected table: vertical axis → top becomes `P - E` (left
zeroed); horizontal ltr → left becomes `P - E`; horizontal rtl fullsize →
left becomes `P + E`; horizontal rtl non-fullsize → position unchanged;
and a view not flagged "above" triggers no scroll at all. -/
theorem erase_compensation_table (c : EraseConfig) (prevLeft prevTop : Int)
    (b : VBounds) (above : Bool) :
    eraseScrollTarget c prevLeft prevTop b above =
      amendedEraseTarget c prevLeft prevTop b above := by
  obtain ⟨fs, vert, rtl⟩ := c
  cases above <;> cases fs <;> cases vert <;> cases rtl <;>
    simp [eraseScrollTarget, amendedEraseTarget]

/-- The window stays a well-formed nonempty interval of the `N` sections
under repeated `check` calls. -/
theorem checkIterState_inv (N : Nat) (env : Nat → Bool × Bool) (lo hi : Nat)
    (hlh : lo ≤ hi) (hhN : hi < N) (k : Nat) :
    ∃ lo2 hi2, checkIterState N env (some (lo, hi)) k = some (lo2, hi2) ∧
      lo2 ≤ hi2 ∧ hi2 < N := by
  induction k with
  | zero => exact ⟨lo, hi, rfl, hlh, hhN⟩
  | succ k ih =>
    obtain ⟨lo2, hi2, hk, h1, h2⟩ := ih
    refine ⟨if (env k).2 && decide (0 < lo2) then lo2 - 1 else lo2,
            if (env k).1 && decide (hi2 + 1 < N) then hi2 + 1 else hi2, ?_, ?_, ?_⟩
    · simp [checkIterState, hk, checkGrowStep]
    · by_cases hp : ((env k).2 && decide (0 < lo2)) = true <;>
        by_cases ha : ((env k).1 && decide (hi2 + 1 < N)) = true <;>
        simp [hp, ha] <;> omega
    · by_cases ha : ((env k).1 && decide (hi2 + 1 < N)) = true
      · rw [Bool.and_eq_true, decide_eq_true_eq] at ha
        simp [ha.1, ha.2, decide_eq_true ha.2]
      · simp [ha]
        exact h2

/-- A `check` call that grows the window strictly increases the number of
mounted views. -/
theorem checkGrowStep_size (N lo hi : Nat) (e s : Bool) (hlh : lo ≤ hi)
    (h : (checkGrowStep N (some (lo, hi)) e s).1 = true) :
    winSize (some (lo, hi)) + 1 ≤ winSize (checkGrowStep N (some (lo, hi)) e s).2 := by
  simp only [checkGrowStep, winSize, Bool.or_eq_true, Bool.and_eq_true,
    decide_eq_true_eq] at h ⊢
  rcases Classical.em (e = true ∧ hi + 1 < N) with ha | ha <;>
    rcases Classical.em (s = true ∧ 0 < lo) with hp | hp
  · rw [if_pos ha, if_pos hp]
    obtain ⟨_, hlo⟩ := hp
    omega
  · rw [if_pos ha, if_neg hp]
    omega
  · rw [if_neg ha, if_pos hp]
    obtain ⟨_, hlo⟩ := hp
    omega
  · rcases h with h | h
    · exact absurd h ha
    · exact absurd h hp

/-- C5: with `N` sections and any starting scroll offsets (any per-call
growth triggers `env`), repeated `check` calls converge: starting from a
nonempty window, some call among the first `N` grows nothing (resolving
`false`); and once both ends of the document are mounted (`prev()` and
`next()` both return null), a `check` call performs no growth and leaves
the window unchanged. -/
theorem check_fixed_point_termination (N : Nat) (env : Nat → Bool × Bool)
    (lo hi : Nat) (hlh : lo ≤ hi) (hhN : hi < N) :
    (∃ k, k < N ∧ checkGrewAt N env (some (lo, hi)) k = false) ∧
    (∀ e s : Bool, checkGrowStep N (some (0, N - 1)) e s = (false, some (0, N - 1))) := by
  constructor
  · by_contra hcon
    push_neg at hcon
    have hgrew : ∀ k, k < N → checkGrewAt N env (some (lo, hi)) k = true := by
      intro k hk
      have := hcon k hk
      revert this
      cases checkGrewAt N env (some (lo, hi)) k <;> simp
    have haux : ∀ k, k ≤ N →
        winSize (some (lo, hi)) + k ≤ winSize (checkIterState N env (some (lo, hi)) k) := by
      intro k
      induction k with
      | zero => intro _; simp [checkIterState]
      | succ k ih =>
        intro hk
        have hk' : k ≤ N := Nat.le_of_succ_le hk
        have hkN : k < N := hk
        obtain ⟨lo2, hi2, hst, hl2, hh2⟩ := checkIterState_inv N env lo hi hlh hhN k
        have hg := hgrew k hkN
        rw [checkGrewAt, hst] at hg
        have hsz := checkGrowStep_size N lo2 hi2 (env k).1 (env k).2 hl2 hg
        have hstep : checkIterState N env (some (lo, hi)) (k + 1) =
            (checkGrowStep N (some (lo2, hi2)) (env k).1 (env k).2).2 := by
          simp [checkIterState, hst]
        rw [hstep]
        have := ih hk'
        rw [hst] at this
        omega
    obtain ⟨lo2, hi2, hst, hl2, hh2⟩ := checkIterState_inv N env lo hi hlh hhN N
    have hN := haux N (Nat.le_refl N)
    rw [hst] at hN
    simp [winSize] at hN
    omega
  · intro e s
    have h1 : ¬(N - 1 + 1 < N) := by omega
    simp [checkGrowStep, h1]

/-- C5 witness: a 3-section document with the middle section mounted and
growth triggers firing on every call. -/
theorem check_fixed_point_termination_witness :
    (∃ k, k < 3 ∧ checkGrewAt 3 (fun _ => (true, true)) (some (1, 1)) k = false) ∧
    (∀ e s : Bool, checkGrowStep 3 (some (0, 3 - 1)) e s = (false, some (0, 3 - 1))) :=
  check_fixed_point_termination 3 (fun _ => (true, true)) 1 1 (by decide) (by decide)

/-- C6 counterexample: a call that grows the window (here: a 2-section
document whose single mounted view triggers `end >= contentLength`)
resolves with the value of the visibility pass — `undefined` when that
pass pushed no display promise — or, when a new view's display rejects,
with the error value passed through `err => err`; never with the boolean
`true`. -/
theorem check_resolves_grown_claim_false :
    (checkGrowStep 2 (some (0, 0)) true false).1 = true ∧
      (checkResolved true true []).value = JsVal.undef ∧
      (checkResolved true true []).value ≠ JsVal.bool true ∧
      (checkResolved true false []).value = JsVal.error := by
  exact ⟨rfl, rfl, by decide, rfl⟩

/-- C6 (amended): `check` resolves `false` (with the visibility pass
enqueued, not run inline) exactly when no view was appended or prepended.
When the window grew and every new view's display resolved, it resolves
with the value of the inline visibility pass — an array of display
settlements or `undefined`; when some new view's display rejected, it
resolves with the error value (the `err => err` handler) and runs no
visibility pass.  In no case does it resolve with the boolean `true`. -/
theorem check_resolved_value (vs : List UView) (grew ok : Bool) :
    (checkResolved false ok vs =
      { value := JsVal.bool false, ranUpdateInline := false, enqueuedUpdate := true }) ∧
    (checkResolved true true vs =
      { value := updateValue vs, ranUpdateInline := true, enqueuedUpdate := false }) ∧
    (checkResolved true false vs =
      { value := JsVal.error, ranUpdateInline := false, enqueuedUpdate := false }) ∧
    (checkResolved grew ok vs).value ≠ JsVal.bool true := by
  refine ⟨rfl, rfl, rfl, ?_⟩
  cases grew
  · simp [checkResolved]
  · cases ok
    · simp [checkResolved]
    · simp only [checkResolved, if_pos]
      unfold updateValue
      split <;> simp

/-- C7: for a fixed layout and a non-empty window, `prev` after `next`
restores the scroll position: both compute the same step delta (doubled
only for a pre-paginated spread layout) and apply it with opposite signs
along the same axis. -/
theorem next_prev_inverse (c : NavConfig) (p : ScrollPos) (hne : c.viewsLen ≠ 0) :
    prevScroll c (nextScroll c p) = p := by
  unfold nextScroll prevScroll scrollBy
  simp only [hne, if_false]
  split <;> (obtain ⟨l, t⟩ := p; simp)

/-- C7 witness: a pre-paginated spread layout, horizontal paginated axis,
one mounted view. -/
theorem next_prev_inverse_witness :
    prevScroll
        { prePaginated := true, spread := true, delta := 600, height := 800,
          isPaginated := true, horizontal := true, viewsLen := 1 }
        (nextScroll
          { prePaginated := true, spread := true, delta := 600, height := 800,
            isPaginated := true, horizontal := true, viewsLen := 1 }
          { left := 40, top := 7 }) =
      { left := 40, top := 7 } :=
  next_prev_inverse
    { prePaginated := true, spread := true, delta := 600, height := 800,
      isPaginated := true, horizontal := true, viewsLen := 1 }
    { left := 40, top := 7 } (by decide)

/-- C9: a `gap` of `0` in the construction options is preserved as the
effective setting (the guard at lines 30–32 re-asserts it), and this is
distinct from the unset case, where no default is substituted. -/
theorem gap_zero_preserved :
    effectiveGap (some 0) = some 0 ∧ effectiveGap none = none ∧
      effectiveGap (some 0) ≠ effectiveGap none := by
  exact ⟨rfl, rfl, by decide⟩

/-- C10: the effective lookahead margin of `check` is `settings.offset`
unless the hint for the active axis is truthy, in which case it is that
hint's value; a hint of `0` never overrides the margin; and the hint of
the inactive axis is ignored. -/
theorem check_margin_hints (off : Int) (horizontal : Bool)
    (l t : Option Int) :
    (jsTruthy (if horizontal then l else t) = false →
      effectiveDelta (some off) horizontal l t = off) ∧
    (∀ x : Int, (if horizontal then l else t) = some x → x ≠ 0 →
      effectiveDelta (some off) horizontal l t = x) ∧
    (effectiveDelta (some off) horizontal (some 0) (some 0) = off) ∧
    (∀ t2 : Option Int, effectiveDelta (some off) true l t =
      effectiveDelta (some off) true l t2) ∧
    (∀ l2 : Option Int, effectiveDelta (some off) false l t =
      effectiveDelta (some off) false l2 t) := by
  refine ⟨?_, ?_, ?_, ?_, ?_⟩
  · intro h
    cases horizontal <;>
      simp_all [effectiveDelta, jsOrZero_some]
  · intro x hx hx0
    cases horizontal <;>
      simp_all [effectiveDelta, jsTruthy]
  · cases horizontal <;> simp [effectiveDelta, jsTruthy, jsOrZero_some]
  · intro t2; simp [effectiveDelta]
  · intro l2; simp [effectiveDelta]

/-- C10 witness: margin 500, horizontal axis, a truthy left hint of 200, a
top hint that is ignored; and a zero hint that does not override. -/
theorem check_margin_hints_witness :
    effectiveDelta (some 500) true (some 200) (some 999) = 200 ∧
      effectiveDelta (some 500) true (some 0) (some 0) = 500 ∧
      effectiveDelta (some 500) false (some 200) none = 500 := by
  refine ⟨?_, ?_, ?_⟩
  · exact (check_margin_hints 500 true (some 200) (some 999)).2.1 200 rfl (by decide)
  · exact (check_margin_hints 500 true (some 0) (some 0)).2.2.1
  · exact (check_margin_hints 500 false (some 200) none).1 rfl

end Epubjs
